import Mathlib

/-!
# weatherApp: the `/weather` handler

A shallow embedding of `weatherHandler` (src/main.go).  The handler is a
straight-line function of

* the process environment (`os.Getenv`),
* the parsed query string of the request (`r.URL.Query()`),
* the answer of the upstream to `http.Get`,
* the Go standard library's JSON decoder.

The first three are the outside world and the last is library code, so they
are fields of `World`, over which every theorem is universally quantified.
The library functions that write the reply (`http.Error`, `strings.ToLower`,
`unicode.ToLower`, the JSON encoder) are defined, not assumed.
The handler's own branching, its type assertions, its temperature switch and
the construction of the reply are translated line by line.

Log output (`log.Println`, `log.Printf`) goes to standard error and is not
part of the reply; it is not modelled.
-/

set_option autoImplicit false

namespace WeatherApp

/-! ## Decoded JSON -/

/-- A `float64` that `encoding/json` can produce.  JSON has no literal for
NaN or the infinities and the decoder rejects a number out of range, so the
value is finite, hence a rational; `<`, `<=`, `>=`, `>` on finite floats are
the order of the rationals. -/
abbrev Float64 := ℚ

/-- The dynamic values `encoding/json` stores in an `interface{}`:
`nil`, `bool`, `float64`, `string`, `[]interface{}`, `map[string]interface{}`. -/
inductive JSONValue where
  | null
  | bool (b : Bool)
  | number (f : Float64)
  | string (s : String)
  | array (xs : List JSONValue)
  | object (m : List (String × JSONValue))

/-- The Go type `map[string]interface{}`, as an association list read by first match. -/
abbrev JSONMap := List (String × JSONValue)

/-- The Go expression `m[k]` on a `map[string]interface{}`: the stored value, or
the zero value of `interface{}` (nil) when the key is absent. -/
def mapIndex (m : JSONMap) (k : String) : JSONValue :=
  (m.lookup k).getD JSONValue.null

/-- The Go expression `v.([]interface{})` in its two-result form. -/
def asArray : JSONValue → Option (List JSONValue)
  | .array xs => some xs
  | _ => none

/-- The Go expression `v.(map[string]interface{})` in its two-result form; the
one-result form panics exactly when this is `none`. -/
def asObject : JSONValue → Option JSONMap
  | .object m => some m
  | _ => none

/-- The Go expression `v.(string)` in its two-result form. -/
def asString : JSONValue → Option String
  | .string s => some s
  | _ => none

/-- The Go expression `v.(float64)` in its two-result form. -/
def asFloat64 : JSONValue → Option Float64
  | .number f => some f
  | _ => none

/-! ## The structs of main.go -/

/-- Struct for simplified weather response (main.go, lines 14-18);
the JSON tags are `condition` and `temperature`. -/
structure WeatherResponse where
  Condition : String
  Temperature : String

/-- Struct to decode error response from OpenWeatherMap (main.go, lines 20-24). -/
structure APIErrorResponse where
  Cod : Int
  Message : String

/-! ## The temperature switch -/

/-- Lines 124-133: the expressionless `switch` over `temp`.  `tempDesc` is declared
with its zero value, the empty string, which stays if no case fires. -/
def tempDesc (temp : Float64) : String :=
  if temp < 10 then "Cold"
  else if temp ≥ 10 ∧ temp ≤ 25 then "Moderate"
  else if temp > 25 then "Hot"
  else ""


/-! ## unicode.ToLower and strings.ToLower -/

namespace unicode

/-- The constant `unicode.MaxRune`. -/
def MaxRune : Int := 1114111

/-- The constant `unicode.MaxASCII`. -/
def MaxASCII : Nat := 127

/-- The constant `unicode.UpperLower`, the delta that marks an alternating
upper-case, lower-case sequence. -/
def UpperLower : Int := MaxRune + 1

/-- A `unicode.CaseRange`, with the `LowerCase` entry of its `Delta` array. -/
structure CaseRange where
  Lo : Nat
  Hi : Nat
  Delta : Int

/-- The lower-case column of the table `unicode.CaseRanges`: the simple lower-case
mappings of the Unicode Character Database 14.0.0 (the same in 15.0.0, the tables
of Go 1.21), as sorted disjoint ranges.  Ranges whose lower-case delta is zero
are left out, since they map every rune to itself. -/
def CaseRanges : List CaseRange :=
  [CaseRange.mk 0x0041 0x005A 32, CaseRange.mk 0x00C0 0x00D6 32, CaseRange.mk 0x00D8 0x00DE 32,
   CaseRange.mk 0x0100 0x012F UpperLower, CaseRange.mk 0x0130 0x0130 (-199),
   CaseRange.mk 0x0132 0x0137 UpperLower, CaseRange.mk 0x0139 0x0148 UpperLower,
   CaseRange.mk 0x014A 0x0177 UpperLower, CaseRange.mk 0x0178 0x0178 (-121),
   CaseRange.mk 0x0179 0x017E UpperLower, CaseRange.mk 0x0181 0x0181 210,
   CaseRange.mk 0x0182 0x0185 UpperLower, CaseRange.mk 0x0186 0x0186 206,
   CaseRange.mk 0x0187 0x0187 1, CaseRange.mk 0x0189 0x018A 205, CaseRange.mk 0x018B 0x018B 1,
   CaseRange.mk 0x018E 0x018E 79, CaseRange.mk 0x018F 0x018F 202, CaseRange.mk 0x0190 0x0190 203,
   CaseRange.mk 0x0191 0x0191 1, CaseRange.mk 0x0193 0x0193 205, CaseRange.mk 0x0194 0x0194 207,
   CaseRange.mk 0x0196 0x0196 211, CaseRange.mk 0x0197 0x0197 209, CaseRange.mk 0x0198 0x0198 1,
   CaseRange.mk 0x019C 0x019C 211, CaseRange.mk 0x019D 0x019D 213, CaseRange.mk 0x019F 0x019F 214,
   CaseRange.mk 0x01A0 0x01A5 UpperLower, CaseRange.mk 0x01A6 0x01A6 218,
   CaseRange.mk 0x01A7 0x01A7 1, CaseRange.mk 0x01A9 0x01A9 218, CaseRange.mk 0x01AC 0x01AC 1,
   CaseRange.mk 0x01AE 0x01AE 218, CaseRange.mk 0x01AF 0x01AF 1, CaseRange.mk 0x01B1 0x01B2 217,
   CaseRange.mk 0x01B3 0x01B6 UpperLower, CaseRange.mk 0x01B7 0x01B7 219,
   CaseRange.mk 0x01B8 0x01B8 1, CaseRange.mk 0x01BC 0x01BC 1, CaseRange.mk 0x01C4 0x01C4 2,
   CaseRange.mk 0x01C5 0x01C5 1, CaseRange.mk 0x01C7 0x01C7 2, CaseRange.mk 0x01C8 0x01C8 1,
   CaseRange.mk 0x01CA 0x01CA 2, CaseRange.mk 0x01CB 0x01DC UpperLower,
   CaseRange.mk 0x01DE 0x01EF UpperLower, CaseRange.mk 0x01F1 0x01F1 2,
   CaseRange.mk 0x01F2 0x01F5 UpperLower, CaseRange.mk 0x01F6 0x01F6 (-97),
   CaseRange.mk 0x01F7 0x01F7 (-56), CaseRange.mk 0x01F8 0x021F UpperLower,
   CaseRange.mk 0x0220 0x0220 (-130), CaseRange.mk 0x0222 0x0233 UpperLower,
   CaseRange.mk 0x023A 0x023A 10795, CaseRange.mk 0x023B 0x023B 1,
   CaseRange.mk 0x023D 0x023D (-163), CaseRange.mk 0x023E 0x023E 10792,
   CaseRange.mk 0x0241 0x0241 1, CaseRange.mk 0x0243 0x0243 (-195), CaseRange.mk 0x0244 0x0244 69,
   CaseRange.mk 0x0245 0x0245 71, CaseRange.mk 0x0246 0x024F UpperLower,
   CaseRange.mk 0x0370 0x0373 UpperLower, CaseRange.mk 0x0376 0x0376 1,
   CaseRange.mk 0x037F 0x037F 116, CaseRange.mk 0x0386 0x0386 38, CaseRange.mk 0x0388 0x038A 37,
   CaseRange.mk 0x038C 0x038C 64, CaseRange.mk 0x038E 0x038F 63, CaseRange.mk 0x0391 0x03A1 32,
   CaseRange.mk 0x03A3 0x03AB 32, CaseRange.mk 0x03CF 0x03CF 8,
   CaseRange.mk 0x03D8 0x03EF UpperLower, CaseRange.mk 0x03F4 0x03F4 (-60),
   CaseRange.mk 0x03F7 0x03F7 1, CaseRange.mk 0x03F9 0x03F9 (-7), CaseRange.mk 0x03FA 0x03FA 1,
   CaseRange.mk 0x03FD 0x03FF (-130), CaseRange.mk 0x0400 0x040F 80,
   CaseRange.mk 0x0410 0x042F 32, CaseRange.mk 0x0460 0x0481 UpperLower,
   CaseRange.mk 0x048A 0x04BF UpperLower, CaseRange.mk 0x04C0 0x04C0 15,
   CaseRange.mk 0x04C1 0x04CE UpperLower, CaseRange.mk 0x04D0 0x052F UpperLower,
   CaseRange.mk 0x0531 0x0556 48, CaseRange.mk 0x10A0 0x10C5 7264,
   CaseRange.mk 0x10C7 0x10C7 7264, CaseRange.mk 0x10CD 0x10CD 7264,
   CaseRange.mk 0x13A0 0x13EF 38864, CaseRange.mk 0x13F0 0x13F5 8,
   CaseRange.mk 0x1C90 0x1CBA (-3008), CaseRange.mk 0x1CBD 0x1CBF (-3008),
   CaseRange.mk 0x1E00 0x1E95 UpperLower, CaseRange.mk 0x1E9E 0x1E9E (-7615),
   CaseRange.mk 0x1EA0 0x1EFF UpperLower, CaseRange.mk 0x1F08 0x1F0F (-8),
   CaseRange.mk 0x1F18 0x1F1D (-8), CaseRange.mk 0x1F28 0x1F2F (-8),
   CaseRange.mk 0x1F38 0x1F3F (-8), CaseRange.mk 0x1F48 0x1F4D (-8),
   CaseRange.mk 0x1F59 0x1F59 (-8), CaseRange.mk 0x1F5B 0x1F5B (-8),
   CaseRange.mk 0x1F5D 0x1F5D (-8), CaseRange.mk 0x1F5F 0x1F5F (-8),
   CaseRange.mk 0x1F68 0x1F6F (-8), CaseRange.mk 0x1F88 0x1F8F (-8),
   CaseRange.mk 0x1F98 0x1F9F (-8), CaseRange.mk 0x1FA8 0x1FAF (-8),
   CaseRange.mk 0x1FB8 0x1FB9 (-8), CaseRange.mk 0x1FBA 0x1FBB (-74),
   CaseRange.mk 0x1FBC 0x1FBC (-9), CaseRange.mk 0x1FC8 0x1FCB (-86),
   CaseRange.mk 0x1FCC 0x1FCC (-9), CaseRange.mk 0x1FD8 0x1FD9 (-8),
   CaseRange.mk 0x1FDA 0x1FDB (-100), CaseRange.mk 0x1FE8 0x1FE9 (-8),
   CaseRange.mk 0x1FEA 0x1FEB (-112), CaseRange.mk 0x1FEC 0x1FEC (-7),
   CaseRange.mk 0x1FF8 0x1FF9 (-128), CaseRange.mk 0x1FFA 0x1FFB (-126),
   CaseRange.mk 0x1FFC 0x1FFC (-9), CaseRange.mk 0x2126 0x2126 (-7517),
   CaseRange.mk 0x212A 0x212A (-8383), CaseRange.mk 0x212B 0x212B (-8262),
   CaseRange.mk 0x2132 0x2132 28, CaseRange.mk 0x2160 0x216F 16, CaseRange.mk 0x2183 0x2183 1,
   CaseRange.mk 0x24B6 0x24CF 26, CaseRange.mk 0x2C00 0x2C2F 48, CaseRange.mk 0x2C60 0x2C60 1,
   CaseRange.mk 0x2C62 0x2C62 (-10743), CaseRange.mk 0x2C63 0x2C63 (-3814),
   CaseRange.mk 0x2C64 0x2C64 (-10727), CaseRange.mk 0x2C67 0x2C6C UpperLower,
   CaseRange.mk 0x2C6D 0x2C6D (-10780), CaseRange.mk 0x2C6E 0x2C6E (-10749),
   CaseRange.mk 0x2C6F 0x2C6F (-10783), CaseRange.mk 0x2C70 0x2C70 (-10782),
   CaseRange.mk 0x2C72 0x2C72 1, CaseRange.mk 0x2C75 0x2C75 1,
   CaseRange.mk 0x2C7E 0x2C7F (-10815), CaseRange.mk 0x2C80 0x2CE3 UpperLower,
   CaseRange.mk 0x2CEB 0x2CEE UpperLower, CaseRange.mk 0x2CF2 0x2CF2 1,
   CaseRange.mk 0xA640 0xA66D UpperLower, CaseRange.mk 0xA680 0xA69B UpperLower,
   CaseRange.mk 0xA722 0xA72F UpperLower, CaseRange.mk 0xA732 0xA76F UpperLower,
   CaseRange.mk 0xA779 0xA77C UpperLower, CaseRange.mk 0xA77D 0xA77D (-35332),
   CaseRange.mk 0xA77E 0xA787 UpperLower, CaseRange.mk 0xA78B 0xA78B 1,
   CaseRange.mk 0xA78D 0xA78D (-42280), CaseRange.mk 0xA790 0xA793 UpperLower,
   CaseRange.mk 0xA796 0xA7A9 UpperLower, CaseRange.mk 0xA7AA 0xA7AA (-42308),
   CaseRange.mk 0xA7AB 0xA7AB (-42319), CaseRange.mk 0xA7AC 0xA7AC (-42315),
   CaseRange.mk 0xA7AD 0xA7AD (-42305), CaseRange.mk 0xA7AE 0xA7AE (-42308),
   CaseRange.mk 0xA7B0 0xA7B0 (-42258), CaseRange.mk 0xA7B1 0xA7B1 (-42282),
   CaseRange.mk 0xA7B2 0xA7B2 (-42261), CaseRange.mk 0xA7B3 0xA7B3 928,
   CaseRange.mk 0xA7B4 0xA7C3 UpperLower, CaseRange.mk 0xA7C4 0xA7C4 (-48),
   CaseRange.mk 0xA7C5 0xA7C5 (-42307), CaseRange.mk 0xA7C6 0xA7C6 (-35384),
   CaseRange.mk 0xA7C7 0xA7CA UpperLower, CaseRange.mk 0xA7D0 0xA7D0 1,
   CaseRange.mk 0xA7D6 0xA7D9 UpperLower, CaseRange.mk 0xA7F5 0xA7F5 1,
   CaseRange.mk 0xFF21 0xFF3A 32, CaseRange.mk 0x10400 0x10427 40,
   CaseRange.mk 0x104B0 0x104D3 40, CaseRange.mk 0x10570 0x1057A 39,
   CaseRange.mk 0x1057C 0x1058A 39, CaseRange.mk 0x1058C 0x10592 39,
   CaseRange.mk 0x10594 0x10595 39, CaseRange.mk 0x10C80 0x10CB2 64,
   CaseRange.mk 0x118A0 0x118BF 32, CaseRange.mk 0x16E40 0x16E5F 32,
   CaseRange.mk 0x1E900 0x1E921 34]

/-- The Go function `to` of package `unicode`, for `_case = LowerCase`.  Go finds the range that
holds `r` by binary search; the ranges are sorted and disjoint, so that is the
first range that holds `r`. -/
def caseTo (r : Nat) : List CaseRange → Nat
  | [] => r
  | cr :: rest =>
    if cr.Lo ≤ r ∧ r ≤ cr.Hi then
      if cr.Delta > MaxRune then cr.Lo + ((r - cr.Lo) / 2 * 2 + 1)
      else (r + cr.Delta).toNat
    else caseTo r rest

/-- The Go function `unicode.ToLower`. -/
def ToLower (r : Char) : Char :=
  if r.toNat ≤ MaxASCII then
    if 'A' ≤ r ∧ r ≤ 'Z' then Char.ofNat (r.toNat + 32) else r
  else Char.ofNat (caseTo r.toNat CaseRanges)

end unicode

namespace strings

/-- The ASCII branch of `strings.ToLower`: `c += 'a' - 'A'` for `'A' <= c <= 'Z'`. -/
def lowerASCII (c : Char) : Char :=
  if 'A' ≤ c ∧ c ≤ 'Z' then Char.ofNat (c.toNat + 32) else c

/-- The Go function `strings.ToLower`: a string of ASCII bytes is lowered byte by
byte, any other string rune by rune, `strings.Map(unicode.ToLower, s)`. -/
def ToLower (s : String) : String :=
  if s.data.all (fun c => decide (c.toNat < 128)) then String.mk (s.data.map lowerASCII)
  else String.mk (s.data.map unicode.ToLower)

end strings

/-! ## json.Encoder.Encode on a WeatherResponse -/

namespace json

/-- The sixteen digits `encoding/json` uses in a `\u00XX` escape. -/
def hex (n : Nat) : Char := "0123456789abcdef".data.getD n '0'

/-- One rune of a Go string inside a JSON string literal, with HTML escaping on
(the default of `json.NewEncoder`). -/
def escapeRune (c : Char) : List Char :=
  if c = '\\' ∨ c = '"' then ['\\', c]
  else if c = Char.ofNat 8 then ['\\', 'b']
  else if c = Char.ofNat 12 then ['\\', 'f']
  else if c = '\n' then ['\\', 'n']
  else if c = '\r' then ['\\', 'r']
  else if c = '\t' then ['\\', 't']
  else if c.toNat < 32 ∨ c = '<' ∨ c = '>' ∨ c = '&' then
    ['\\', 'u', '0', '0', hex (c.toNat / 16), hex (c.toNat % 16)]
  else if c.toNat = 8232 then ['\\', 'u', '2', '0', '2', '8']
  else if c.toNat = 8233 then ['\\', 'u', '2', '0', '2', '9']
  else [c]

/-- A Go string as a JSON string literal. -/
def encodeString (s : String) : String :=
  String.mk ('"' :: (s.data.flatMap escapeRune ++ ['"']))

/-- The text `json.NewEncoder(w).Encode(response)` writes for a `WeatherResponse`:
the two fields under their JSON tags, in declaration order, then a newline. -/
def Encode (v : WeatherResponse) : String :=
  "\x7b\"condition\":" ++ encodeString v.Condition ++
    ",\"temperature\":" ++ encodeString v.Temperature ++ "\x7d\n"

end json

/-! ## net/http: the reply under construction -/

namespace http

/-- The status constants main.go uses. -/
def StatusOK : Nat := 200
/-- The constant `http.StatusBadRequest`. -/
def StatusBadRequest : Nat := 400
/-- The constant `http.StatusUnauthorized`. -/
def StatusUnauthorized : Nat := 401
/-- The constant `http.StatusInternalServerError`. -/
def StatusInternalServerError : Nat := 500

/-- What the handler has put into its `http.ResponseWriter`: the header map, the
status line (`none` until it is written) and the body bytes. -/
structure ResponseWriter where
  header : List (String × String) := []
  status : Option Nat := none
  body : String := ""

/-- The call `w.Header().Set(key, value)`. -/
def ResponseWriter.Set (w : ResponseWriter) (key value : String) : ResponseWriter :=
  { w with header := (key, value) :: w.header.filter (fun p => p.1 != key) }

/-- The call `w.Header().Get(key)`. -/
def ResponseWriter.Get (w : ResponseWriter) (key : String) : String :=
  (w.header.lookup key).getD ""

/-- The call `w.WriteHeader(code)`; only the first status written counts. -/
def ResponseWriter.WriteHeader (w : ResponseWriter) (code : Nat) : ResponseWriter :=
  match w.status with
  | none => { w with status := some code }
  | some _ => w

/-- The call `w.Write(p)`: writes the implicit `200 OK` first if no status was
written, then appends to the body. -/
def ResponseWriter.Write (w : ResponseWriter) (p : String) : ResponseWriter :=
  let w1 := w.WriteHeader StatusOK
  { w1 with body := w1.body ++ p }

/-- The Go function `http.Error`: plain-text content type, `nosniff`, the status
code, then the message and a newline. -/
def Error (w : ResponseWriter) (error : String) (code : Nat) : ResponseWriter :=
  (((w.Set "Content-Type" "text/plain; charset=utf-8").Set
    "X-Content-Type-Options" "nosniff").WriteHeader code).Write (error ++ "\n")

/-- An `io.ReadCloser` over a response body: the bytes it yields and whether the
stream then ends in a read error instead of end-of-file. -/
structure ReadCloser where
  data : List UInt8
  err : Bool

/-- The part of `http.Response` the handler reads. -/
structure Response where
  StatusCode : Nat
  Body : ReadCloser

end http

namespace ioutil

/-- The Go function `ioutil.ReadAll`: all bytes, or `none` for a read error. -/
def ReadAll (r : http.ReadCloser) : Option (List UInt8) :=
  if r.err then none else some r.data

end ioutil

namespace url

/-- The Go type `url.Values`, `map[string][]string`. -/
abbrev Values := List (String × List String)

/-- The Go method `url.Values.Get`: the first value of the key, or the empty string. -/
def Values.Get (v : Values) (key : String) : String :=
  match v.lookup key with
  | some (x :: _) => x
  | _ => ""

end url

/-- The inbound request, as far as the handler reads it: `r.URL.Query()`. -/
structure Request where
  Query : url.Values

/-- Everything outside main.go that the handler consults. -/
structure World where
  /-- The function `os.Getenv`. -/
  Getenv : String → String
  /-- The function `http.Get`: `none` is a non-nil `err`. -/
  Get : String → Option http.Response
  /-- The call `json.NewDecoder(resp.Body).Decode(&apiError)`: `none` is a non-nil `err`. -/
  decodeAPIError : http.ReadCloser → Option APIErrorResponse
  /-- The call `json.NewDecoder(bytes.NewReader(bodyBytes)).Decode(&result)` into a
  `map[string]interface{}`: `none` is a non-nil `err`. -/
  decodeMap : List UInt8 → Option JSONMap

/-- How one run of the handler ends: the reply written, the URLs handed to
`http.Get` in order, and whether the run ended in a runtime panic (in which case
nothing was written by the handler). -/
structure Run where
  w : http.ResponseWriter
  calls : List String
  panicked : Bool

/-- Line 47: the `fmt.Sprintf` that builds the upstream URL. -/
def upstreamURL (lat lon apiKey : String) : String :=
  "https://api.openweathermap.org/data/2.5/weather?lat=" ++ lat ++ "&lon=" ++ lon ++
    "&appid=" ++ apiKey ++ "&units=metric"

/-- Lines 92-104 of `weatherHandler`: the value `weatherCondition` gets.  `none` is
the runtime panic of the one-result assertion `weather[0].(map[string]interface{})`
on line 96, raised when the first element is not an object. -/
def weatherCondition (result : JSONMap) : Option String :=
  match asArray (mapIndex result "weather") with
  | some (first :: _) =>
    match asObject first with
    | none => none
    | some m =>
      match asString (mapIndex m "main") with
      | some condition => some condition
      | none => some "Unknown"
  | _ => some "Unknown"

/-- Lines 106-141 of `weatherHandler`: the temperature is extracted and the reply
written, for the `weatherCondition` already found. -/
def respond (w : http.ResponseWriter) (result : JSONMap)
    (weatherCondition : String) : http.ResponseWriter :=
  match asObject (mapIndex result "main") with
  | some main =>
    match asFloat64 (mapIndex main "temp") with
    | some temp =>
      let response : WeatherResponse :=
        { Condition := strings.ToLower weatherCondition
          Temperature := tempDesc temp }
      (w.Set "Content-Type" "application/json").Write (json.Encode response)
    | none => http.Error w "Temperature data is unavailable" http.StatusInternalServerError
  | none => http.Error w "Weather data format is unexpected" http.StatusInternalServerError

/-- Handler for the weather endpoint (main.go, lines 27-142), run on a fresh
`http.ResponseWriter`. -/
def weatherHandler (W : World) (r : Request) : Run :=
  let w : http.ResponseWriter := {}
  let apiKey := W.Getenv "OPENWEATHER_API_KEY"
  if apiKey = "" then
    ⟨http.Error w "API key for OpenWeatherMap is not set" http.StatusInternalServerError,
      [], false⟩
  else
    let query := r.Query
    let lat := query.Get "lat"
    let lon := query.Get "lon"
    if lat = "" ∨ lon = "" then
      ⟨http.Error w "Please provide both latitude and longitude" http.StatusBadRequest,
        [], false⟩
    else
      let url := upstreamURL lat lon apiKey
      match W.Get url with
      | none =>
        ⟨http.Error w "Failed to request weather data" http.StatusInternalServerError,
          [url], false⟩
      | some resp =>
        if resp.StatusCode = http.StatusUnauthorized then
          match W.decodeAPIError resp.Body with
          | some apiError =>
            ⟨http.Error w ("Invalid API key: " ++ apiError.Message) http.StatusUnauthorized,
              [url], false⟩
          | none => ⟨http.Error w "Invalid API key" http.StatusUnauthorized, [url], false⟩
        else
          match ioutil.ReadAll resp.Body with
          | none =>
            ⟨http.Error w "Failed to process weather data" http.StatusInternalServerError,
              [url], false⟩
          | some bodyBytes =>
            match W.decodeMap bodyBytes with
            | none =>
              ⟨http.Error w "Failed to decode weather data" http.StatusInternalServerError,
                [url], false⟩
            | some result =>
              match weatherCondition result with
              | none => ⟨w, [url], true⟩
              | some condition => ⟨respond w result condition, [url], false⟩


/-! ## The reply as the spec describes it

The definitions of this section follow the spec's words, not main.go: the label
table of section 4.1, lower-casing rune by rune, and a reader of JSON text
(RFC 8259) for an object whose members are strings. -/

namespace Spec

/-- The temperature table of the spec: `temp < 10` Cold, `10 ≤ temp ≤ 25`
Moderate, `temp > 25` Hot. -/
def label (t : Float64) : String :=
  if t < 10 then "Cold" else if t ≤ 25 then "Moderate" else "Hot"

/-- The lower case of one rune: `Char.toLower` of Lean's library on ASCII, the
simple lower-case mapping of the Unicode tables beyond. -/
def lowerRune (c : Char) : Char :=
  if c.toNat < 128 then c.toLower else Char.ofNat (unicode.caseTo c.toNat unicode.CaseRanges)

/-- A string with every rune in lower case. -/
def lowerCase (s : String) : String := String.mk (s.data.map lowerRune)

/-- The value of a hexadecimal digit. -/
def hexValue (c : Char) : Option Nat :=
  if '0' ≤ c ∧ c ≤ '9' then some (c.toNat - 48)
  else if 'a' ≤ c ∧ c ≤ 'f' then some (c.toNat - 87)
  else if 'A' ≤ c ∧ c ≤ 'F' then some (c.toNat - 55)
  else none

/-- The character a two-character escape `\c` of a JSON string stands for. -/
def unescape (c : Char) : Option Char :=
  if c = '"' then some '"'
  else if c = '\\' then some '\\'
  else if c = '/' then some '/'
  else if c = 'b' then some (Char.ofNat 8)
  else if c = 'f' then some (Char.ofNat 12)
  else if c = 'n' then some '\n'
  else if c = 'r' then some '\r'
  else if c = 't' then some '\t'
  else none

/-- Where the reader stands inside a JSON string: between characters, after a
backslash, or inside `\uXXXX` with `digits` digits read and value `acc` so far. -/
inductive Mode where
  | plain
  | escape
  | hex (digits acc : Nat)

/-- Reads the inside of a JSON string up to its closing quote: the characters it
stands for and the text after the quote.  Raw control characters, unknown
escapes and escaped surrogates are refused. -/
def readChars : Mode → List Char → Option (List Char × List Char)
  | _, [] => none
  | .plain, c :: cs =>
    if c = '"' then some ([], cs)
    else if c = '\\' then readChars .escape cs
    else if c.toNat < 32 then none
    else (readChars .plain cs).map (fun p => (c :: p.1, p.2))
  | .escape, c :: cs =>
    if c = 'u' then readChars (.hex 0 0) cs
    else
      match unescape c with
      | some e => (readChars .plain cs).map (fun p => (e :: p.1, p.2))
      | none => none
  | .hex digits acc, c :: cs =>
    match hexValue c with
    | none => none
    | some v =>
      if digits < 3 then readChars (.hex (digits + 1) (acc * 16 + v)) cs
      else if 55296 ≤ acc * 16 + v ∧ acc * 16 + v ≤ 57343 then none
      else (readChars .plain cs).map (fun p => (Char.ofNat (acc * 16 + v) :: p.1, p.2))

/-- Reads one JSON string, quotes included: its value and the text after it. -/
def readString : List Char → Option (String × List Char)
  | '"' :: cs => (readChars .plain cs).map (fun p => (String.mk p.1, p.2))
  | _ => none

/-- Reads the members `"name":"value"` of a JSON object up to its closing brace,
at most `fuel` of them: the members in order and the text after the brace. -/
def readMembers : Nat → List Char → Option (List (String × String) × List Char)
  | 0, _ => none
  | fuel + 1, cs =>
    match readString cs with
    | some (name, ':' :: cs1) =>
      match readString cs1 with
      | some (value, ',' :: cs2) =>
        (readMembers fuel cs2).map (fun p => ((name, value) :: p.1, p.2))
      | some (value, '}' :: cs2) => some ([(name, value)], cs2)
      | _ => none
    | _ => none

/-- JSON white space. -/
def isWhitespace (c : Char) : Bool :=
  c = ' ' ∨ c = '\n' ∨ c = '\r' ∨ c = '\t'

/-- Reads a whole text as one JSON object whose members are all strings, written
without white space inside and with any white space after: its members in order.
`none` for any other text. -/
def readObject (text : String) : Option (List (String × String)) :=
  match text.data with
  | '{' :: cs =>
    match readMembers cs.length cs with
    | some (members, rest) => if rest.all isWhitespace then some members else none
    | none => none
  | _ => none

end Spec

/-! ## Concrete worlds and inputs -/

/-- The Go conversion `[]byte(s)`. -/
def bytes (s : String) : List UInt8 := s.data.flatMap String.utf8EncodeChar

/-- A world whose environment holds `key` under `OPENWEATHER_API_KEY`, whose
upstream answers the URL `url` (and no other) with `status` and the body text
`body`, and whose JSON decoder turns that text into the map `tree` and the error
struct `apiError` (`none`: the decode fails). -/
def World.fixture (key url : String) (status : Nat) (body : String)
    (tree : Option JSONMap) (apiError : Option APIErrorResponse) : World where
  Getenv := fun name => if name = "OPENWEATHER_API_KEY" then key else ""
  Get := fun u => if u = url then some ⟨status, ⟨bytes body, false⟩⟩ else none
  decodeAPIError := fun b => if b.data = bytes body ∧ b.err = false then apiError else none
  decodeMap := fun b => if b = bytes body then tree else none

/-- The request `GET /weather?lat=10&lon=20`. -/
def request1020 : Request := ⟨[("lat", ["10"]), ("lon", ["20"])]⟩

/-- The request `GET /weather?lon=20`, without `lat`. -/
def requestNoLat : Request := ⟨[("lon", ["20"])]⟩

/-- The URL the handler builds for `request1020` under the key `secret`. -/
def url1020 : String :=
  "https://api.openweathermap.org/data/2.5/weather?lat=10&lon=20&appid=secret&units=metric"

/-- The `float64` nearest to 18.4, which is what `encoding/json` stores for the
text `18.4`: 2589569785738035 / 2^47. -/
def float18_4 : Float64 := 2589569785738035 / 140737488355328

/-- The `float64` nearest to 9.999: 5628936584259699 / 2^49. -/
def float9_999 : Float64 := 5628936584259699 / 562949953421312

/-- The `float64` nearest to 25.001: 7037155892743111 / 2^48. -/
def float25_001 : Float64 := 7037155892743111 / 281474976710656

/-- The upstream body of the end-to-end example. -/
def cloudsBody : String :=
  "\x7b\"weather\":[\x7b\"main\":\"Clouds\"\x7d],\"main\":\x7b\"temp\":18.4\x7d\x7d"

/-- The map `encoding/json` decodes `cloudsBody` to. -/
def cloudsTree : JSONMap :=
  [("weather", .array [.object [("main", .string "Clouds")]]),
   ("main", .object [("temp", .number float18_4)])]

/-- Key `secret`; the upstream answers 200 with `cloudsBody`. -/
def cloudsWorld : World :=
  World.fixture "secret" url1020 200 cloudsBody (some cloudsTree) none

/-- No key in the environment; the upstream would answer 200 with `cloudsBody`. -/
def noKeyWorld : World :=
  World.fixture "" url1020 200 cloudsBody (some cloudsTree) none

/-- A body whose condition has upper-case letters outside ASCII and a quote. -/
def accentBody : String :=
  "\x7b\"weather\":[\x7b\"main\":\"ÉTÉ \\\"Clouds\\\" <Ω>\"\x7d],\"main\":\x7b\"temp\":30\x7d\x7d"

/-- The map `encoding/json` decodes `accentBody` to. -/
def accentTree : JSONMap :=
  [("weather", .array [.object [("main", .string "ÉTÉ \"Clouds\" <Ω>")]]),
   ("main", .object [("temp", .number 30)])]

/-- Key `secret`; the upstream answers 200 with `accentBody`. -/
def accentWorld : World :=
  World.fixture "secret" url1020 200 accentBody (some accentTree) none

/-- The body OpenWeatherMap sends with a 401. -/
def unauthorizedBody : String :=
  "\x7b\"cod\":401, \"message\": \"Invalid API key.\"\x7d"

/-- Key `secret`; the upstream answers 401 with `unauthorizedBody`. -/
def unauthorizedWorld : World :=
  World.fixture "secret" url1020 401 unauthorizedBody none (some ⟨401, "Invalid API key."⟩)

/-- Key `secret`; the upstream answers 200 with a body that is not JSON. -/
def garbledWorld : World :=
  World.fixture "secret" url1020 200 "<html>Bad Gateway</html>" none none

/-- A body whose `weather` array holds a string instead of an object. -/
def stringElementBody : String :=
  "\x7b\"weather\":[\"Clouds\"],\"main\":\x7b\"temp\":18.4\x7d\x7d"

/-- The map `encoding/json` decodes `stringElementBody` to. -/
def stringElementTree : JSONMap :=
  [("weather", .array [.string "Clouds"]), ("main", .object [("temp", .number float18_4)])]

/-- Key `secret`; the upstream answers 200 with `stringElementBody`. -/
def stringElementWorld : World :=
  World.fixture "secret" url1020 200 stringElementBody (some stringElementTree) none

/-- A body whose `weather` array holds a number instead of an object. -/
def numberElementBody : String :=
  "\x7b\"weather\":[7],\"main\":\x7b\"temp\":18.4\x7d\x7d"

/-- The map `encoding/json` decodes `numberElementBody` to. -/
def numberElementTree : JSONMap :=
  [("weather", .array [.number 7]), ("main", .object [("temp", .number float18_4)])]

/-- Key `secret`; the upstream answers 200 with `numberElementBody`. -/
def numberElementWorld : World :=
  World.fixture "secret" url1020 200 numberElementBody (some numberElementTree) none

/-- A body without `main` whose `weather` array holds `null`. -/
def nullElementBody : String := "\x7b\"weather\":[null]\x7d"

/-- The map `encoding/json` decodes `nullElementBody` to. -/
def nullElementTree : JSONMap := [("weather", .array [.null])]

/-- Key `secret`; the upstream answers 200 with `nullElementBody`. -/
def nullElementWorld : World :=
  World.fixture "secret" url1020 200 nullElementBody (some nullElementTree) none

/-- A body with a numeric `main.temp` whose `weather` array holds `true`. -/
def boolElementBody : String :=
  "\x7b\"weather\":[true],\"main\":\x7b\"temp\":30\x7d\x7d"

/-- The map `encoding/json` decodes `boolElementBody` to. -/
def boolElementTree : JSONMap :=
  [("weather", .array [.bool true]), ("main", .object [("temp", .number 30)])]

/-- Key `secret`; the upstream answers 404 with `boolElementBody`. -/
def boolElementWorld : World :=
  World.fixture "secret" url1020 404 boolElementBody (some boolElementTree) none

/-- A body without `weather`, with a numeric `main.temp`. -/
def noWeatherBody : String := "\x7b\"main\":\x7b\"temp\":5\x7d\x7d"

/-- The map `encoding/json` decodes `noWeatherBody` to. -/
def noWeatherTree : JSONMap := [("main", .object [("temp", .number 5)])]

/-- Key `secret`; the upstream answers 200 with `noWeatherBody`. -/
def noWeatherWorld : World :=
  World.fixture "secret" url1020 200 noWeatherBody (some noWeatherTree) none

/-- The body OpenWeatherMap sends with a 404: no `weather`, no `main`. -/
def notFoundBody : String :=
  "\x7b\"cod\":\"404\",\"message\":\"city not found\"\x7d"

/-- The map `encoding/json` decodes `notFoundBody` to. -/
def notFoundTree : JSONMap := [("cod", .string "404"), ("message", .string "city not found")]

/-- Key `secret`; the upstream answers 404 with `notFoundBody`. -/
def notFoundWorld : World :=
  World.fixture "secret" url1020 404 notFoundBody (some notFoundTree) none

/-- Key `secret`; the upstream answers 503 with `cloudsBody`. -/
def cloudsWorld503 : World :=
  World.fixture "secret" url1020 503 cloudsBody (some cloudsTree) none

/-! ## The temperature label -/

/-- C2: for every numeric temperature `t` the label is "Cold" iff `t < 10`,
"Moderate" iff `10 ≤ t ≤ 25` and "Hot" iff `t > 25`; it is never the empty
string; 10 and 25 give "Moderate", 9.999 gives "Cold" and 25.001 gives "Hot"
(both as decimals and as the `float64` values nearest to them). -/
theorem tempDesc_classification :
    (∀ t : Float64,
      (tempDesc t = "Cold" ↔ t < 10) ∧
      (tempDesc t = "Moderate" ↔ 10 ≤ t ∧ t ≤ 25) ∧
      (tempDesc t = "Hot" ↔ 25 < t) ∧
      tempDesc t ≠ "" ∧
      (tempDesc t = "Cold" ∨ tempDesc t = "Moderate" ∨ tempDesc t = "Hot")) ∧
    tempDesc 10 = "Moderate" ∧ tempDesc 25 = "Moderate" ∧
    tempDesc 9.999 = "Cold" ∧ tempDesc 25.001 = "Hot" ∧
    tempDesc float9_999 = "Cold" ∧ tempDesc float25_001 = "Hot" := by
  have key : ∀ t : Float64,
      (tempDesc t = "Cold" ↔ t < 10) ∧
      (tempDesc t = "Moderate" ↔ 10 ≤ t ∧ t ≤ 25) ∧
      (tempDesc t = "Hot" ↔ 25 < t) ∧
      tempDesc t ≠ "" ∧
      (tempDesc t = "Cold" ∨ tempDesc t = "Moderate" ∨ tempDesc t = "Hot") := by
    intro t
    unfold tempDesc
    by_cases h1 : t < 10
    · have h2 : ¬ 25 < t := by linarith
      have h3 : ¬ (10 ≤ t ∧ t ≤ 25) := fun h => absurd h.1 (not_le.mpr h1)
      simp [h1, h2, h3]
    · by_cases h2 : t ≤ 25
      · have h3 : 10 ≤ t := not_lt.mp h1
        have h4 : ¬ 25 < t := not_lt.mpr h2
        simp [h1, h2, h3, h4]
      · have h3 : 10 ≤ t := not_lt.mp h1
        have h4 : 25 < t := not_le.mp h2
        simp [h1, h2, h3, h4]
  refine ⟨key, ?_, ?_, ?_, ?_, ?_, ?_⟩
  · exact (key 10).2.1.mpr ⟨le_refl _, by norm_num⟩
  · exact (key 25).2.1.mpr ⟨by norm_num, le_refl _⟩
  · exact (key 9.999).1.mpr (by norm_num)
  · exact (key 25.001).2.2.1.mpr (by norm_num)
  · exact (key float9_999).1.mpr (by norm_num [float9_999])
  · exact (key float25_001).2.2.1.mpr (by norm_num [float25_001])


/-! ## From the request to the decoded body -/

/-- With the key set, both coordinates given, a non-401 answer, a readable body
and a successful decode, the handler's run is the field extraction on the decoded
map, after exactly one upstream call. -/
theorem weatherHandler_decoded (W : World) (r : Request) (resp : http.Response)
    (result : JSONMap)
    (hkey : W.Getenv "OPENWEATHER_API_KEY" ≠ "")
    (hlat : r.Query.Get "lat" ≠ "") (hlon : r.Query.Get "lon" ≠ "")
    (hget : W.Get (upstreamURL (r.Query.Get "lat") (r.Query.Get "lon")
      (W.Getenv "OPENWEATHER_API_KEY")) = some resp)
    (hstatus : resp.StatusCode ≠ http.StatusUnauthorized)
    (hread : resp.Body.err = false)
    (hdec : W.decodeMap resp.Body.data = some result) :
    weatherHandler W r =
      match weatherCondition result with
      | none => ⟨{}, [upstreamURL (r.Query.Get "lat") (r.Query.Get "lon")
          (W.Getenv "OPENWEATHER_API_KEY")], true⟩
      | some condition => ⟨respond {} result condition,
          [upstreamURL (r.Query.Get "lat") (r.Query.Get "lon")
            (W.Getenv "OPENWEATHER_API_KEY")], false⟩ := by
  simp [weatherHandler, hkey, hlat, hlon, hget, hstatus, ioutil.ReadAll, hread, hdec]

/-- The status, content type and body of a reply made by `http.Error` on a fresh
writer. -/
theorem Error_fresh (error : String) (code : Nat) :
    (http.Error {} error code).status = some code ∧
    (http.Error {} error code).Get "Content-Type" = "text/plain; charset=utf-8" ∧
    (http.Error {} error code).body = error ++ "\n" := by
  refine ⟨rfl, rfl, ?_⟩
  simp [http.Error, http.ResponseWriter.Write, http.ResponseWriter.WriteHeader,
    http.ResponseWriter.Set]

/-- The status, content type and body of the JSON reply on a fresh writer. -/
theorem Encode_fresh (response : WeatherResponse) :
    (((({} : http.ResponseWriter).Set "Content-Type" "application/json").Write
      (json.Encode response)).status = some 200) ∧
    ((({} : http.ResponseWriter).Set "Content-Type" "application/json").Write
      (json.Encode response)).Get "Content-Type" = "application/json" ∧
    ((({} : http.ResponseWriter).Set "Content-Type" "application/json").Write
      (json.Encode response)).body = json.Encode response := by
  refine ⟨rfl, rfl, ?_⟩
  simp [http.ResponseWriter.Write, http.ResponseWriter.WriteHeader,
    http.ResponseWriter.Set]

/-- The condition found when the first element of `weather` is an object with a
string `main`. -/
theorem weatherCondition_string (result m : JSONMap) (rest : List JSONValue) (s : String)
    (hweather : mapIndex result "weather" = JSONValue.array (JSONValue.object m :: rest))
    (hcond : mapIndex m "main" = JSONValue.string s) :
    weatherCondition result = some s := by
  simp [weatherCondition, hweather, hcond, asArray, asObject, asString]

/-- The line-96 panic happens exactly when `weather` is a non-empty array whose
first element is not an object. -/
theorem weatherCondition_eq_none_iff (result : JSONMap) :
    weatherCondition result = none ↔
      ∃ first rest, mapIndex result "weather" = JSONValue.array (first :: rest) ∧
        asObject first = none := by
  unfold weatherCondition
  cases hw : mapIndex result "weather" with
  | array xs =>
    cases xs with
    | nil => simp [asArray]
    | cons first rest =>
      cases hf : asObject first with
      | none => simp [asArray, hf]
      | some m =>
        cases hs : asString (mapIndex m "main") <;> simp [asArray, hf, hs]
  | null => simp [asArray]
  | bool b => simp [asArray]
  | number f => simp [asArray]
  | string s => simp [asArray]
  | object m => simp [asArray]

/-- The reply when `main` is an object with a numeric `temp`. -/
theorem respond_number (w : http.ResponseWriter) (result main : JSONMap)
    (c : String) (t : Float64)
    (hmain : mapIndex result "main" = JSONValue.object main)
    (htemp : mapIndex main "temp" = JSONValue.number t) :
    respond w result c =
      (w.Set "Content-Type" "application/json").Write
        (json.Encode ⟨strings.ToLower c, tempDesc t⟩) := by
  simp [respond, hmain, htemp, asObject, asFloat64]

/-- The three replies the temperature extraction can write. -/
theorem respond_cases (w : http.ResponseWriter) (result : JSONMap) (c : String) :
    (∃ t : Float64, respond w result c =
      (w.Set "Content-Type" "application/json").Write
        (json.Encode ⟨strings.ToLower c, tempDesc t⟩)) ∨
    respond w result c =
      http.Error w "Temperature data is unavailable" http.StatusInternalServerError ∨
    respond w result c =
      http.Error w "Weather data format is unexpected" http.StatusInternalServerError := by
  cases h1 : asObject (mapIndex result "main") with
  | none => exact Or.inr (Or.inr (by simp [respond, h1]))
  | some main =>
    cases h2 : asFloat64 (mapIndex main "temp") with
    | none => exact Or.inr (Or.inl (by simp [respond, h1, h2]))
    | some temp => exact Or.inl ⟨temp, by simp [respond, h1, h2]⟩

/-! ## The library functions against the spec's words -/

/-- The switch of lines 124-133 computes the label table of the spec. -/
theorem tempDesc_eq_label (t : Float64) : tempDesc t = Spec.label t := by
  unfold tempDesc Spec.label
  by_cases h1 : t < 10
  · simp [h1]
  · by_cases h2 : t ≤ 25
    · simp [h1, h2, not_lt.mp h1]
    · simp [h1, h2, not_le.mp h2]

/-- The ASCII branch of `strings.ToLower` is `Char.toLower` of Lean's library. -/
theorem lowerASCII_eq_toLower (c : Char) : strings.lowerASCII c = c.toLower := by
  unfold strings.lowerASCII Char.toLower
  have h1 : ('A' ≤ c) ↔ c.toNat ≥ 65 := by
    rw [Char.le_def]; rfl
  have h2 : (c ≤ 'Z') ↔ c.toNat ≤ 90 := by
    rw [Char.le_def]; rfl
  simp only [h1, h2]

/-- The function `unicode.ToLower` lowers one rune as the spec-side `lowerRune` does. -/
theorem unicode_ToLower_eq_lowerRune (c : Char) : unicode.ToLower c = Spec.lowerRune c := by
  unfold unicode.ToLower Spec.lowerRune unicode.MaxASCII
  by_cases h : c.toNat ≤ 127
  · have h' : c.toNat < 128 := by omega
    simp only [h, h', if_true]
    exact lowerASCII_eq_toLower c
  · have h' : ¬ c.toNat < 128 := by omega
    simp only [h, h', if_false]

/-- Both branches of `strings.ToLower` put every rune in lower case. -/
theorem ToLower_eq_lowerCase (s : String) : strings.ToLower s = Spec.lowerCase s := by
  unfold strings.ToLower Spec.lowerCase
  split
  · rename_i hall
    congr 1
    apply List.map_congr_left
    intro c hc
    have hlt : c.toNat < 128 := by
      have := List.all_eq_true.mp hall c hc
      simpa using this
    rw [lowerASCII_eq_toLower]
    simp [Spec.lowerRune, hlt]
  · congr 1
    apply List.map_congr_left
    intro c _
    exact unicode_ToLower_eq_lowerRune c

/-- The digits the encoder writes in a `\u00XX` escape read back as their value. -/
theorem hexValue_hex : ∀ k, k < 16 → Spec.hexValue (json.hex k) = some k := by
  decide

/-- A `\u00XX` escape of an ASCII character reads back as that character. -/
theorem readChars_hex4 (c : Char) (h : c.toNat < 128) (tail : List Char) :
    Spec.readChars .plain
      ('\\' :: 'u' :: '0' :: '0' :: json.hex (c.toNat / 16) :: json.hex (c.toNat % 16) :: tail) =
      (Spec.readChars .plain tail).map (fun p => (c :: p.1, p.2)) := by
  have h1 := hexValue_hex (c.toNat / 16) (by omega)
  have h2 := hexValue_hex (c.toNat % 16) (by omega)
  have h0 : Spec.hexValue '0' = some 0 := by decide
  have hv : c.toNat / 16 * 16 + c.toNat % 16 = c.toNat := by omega
  have hs : ¬ (55296 ≤ c.toNat ∧ c.toNat ≤ 57343) := by omega
  simp [Spec.readChars, h0, h1, h2, hv, hs]

/-- Whatever the encoder writes for one rune reads back as that rune. -/
theorem readChars_escapeRune (c : Char) (tail : List Char) :
    Spec.readChars .plain (json.escapeRune c ++ tail) =
      (Spec.readChars .plain tail).map (fun p => (c :: p.1, p.2)) := by
  unfold json.escapeRune
  split_ifs with a1 a2 a3 a4 a5 a6 a7 a8 a9
  · rcases a1 with rfl | rfl <;> simp [Spec.readChars, Spec.unescape]
  · subst a2; simp [Spec.readChars, Spec.unescape]
  · subst a3; simp [Spec.readChars, Spec.unescape]
  · subst a4; simp [Spec.readChars, Spec.unescape]
  · subst a5; simp [Spec.readChars, Spec.unescape]
  · subst a6; simp [Spec.readChars, Spec.unescape]
  · have hlt : c.toNat < 128 := by
      rcases a7 with h | rfl | rfl | rfl
      · omega
      · decide
      · decide
      · decide
    exact readChars_hex4 c hlt tail
  · have hc : c = Char.ofNat 8232 := by rw [← a8, Char.ofNat_toNat]
    subst hc
    simp [Spec.readChars, Spec.hexValue]
  · have hc : c = Char.ofNat 8233 := by rw [← a9, Char.ofNat_toNat]
    subst hc
    simp [Spec.readChars, Spec.hexValue]
  · have h1 : c ≠ '"' := fun h => a1 (Or.inr h)
    have h2 : c ≠ '\\' := fun h => a1 (Or.inl h)
    have h3 : ¬ c.toNat < 32 := fun h => a7 (Or.inl h)
    simp [Spec.readChars, h1, h2, h3]

/-- The escaped runes of a string, up to the closing quote, read back as the string. -/
theorem readChars_escaped (s rest : List Char) :
    Spec.readChars .plain (s.flatMap json.escapeRune ++ '"' :: rest) = some (s, rest) := by
  induction s with
  | nil => simp [Spec.readChars]
  | cons c s ih =>
    rw [List.flatMap_cons, List.append_assoc, readChars_escapeRune, ih]
    rfl

/-- A string literal written by the encoder reads back as the string. -/
theorem readString_encodeString (s : String) (rest : List Char) :
    Spec.readString ((json.encodeString s).data ++ rest) = some (s, rest) := by
  simp [json.encodeString, Spec.readString, readChars_escaped]

/-- Two members written by the encoder read back as the two name-value pairs. -/
theorem readMembers_two (fuel : Nat) (k1 v1 k2 v2 : String) (rest : List Char) :
    Spec.readMembers (fuel + 2)
      ((json.encodeString k1).data ++ ':' :: ((json.encodeString v1).data ++ ',' ::
        ((json.encodeString k2).data ++ ':' ::
          ((json.encodeString v2).data ++ '\x7d' :: rest)))) =
      some ([(k1, v1), (k2, v2)], rest) := by
  simp [Spec.readMembers, readString_encodeString]

/-- The text `Encode` writes for a `WeatherResponse` is JSON text for an object with
exactly the members `condition` and `temperature`, holding the two fields. -/
theorem readObject_Encode (v : WeatherResponse) :
    Spec.readObject (json.Encode v) =
      some [("condition", v.Condition), ("temperature", v.Temperature)] := by
  have hk1 : ("\x7b\"condition\":" : String).data =
      '\x7b' :: ((json.encodeString "condition").data ++ [':']) := by decide
  have hk2 : (",\"temperature\":" : String).data =
      ',' :: ((json.encodeString "temperature").data ++ [':']) := by decide
  have hdata : (json.Encode v).data =
      '\x7b' :: ((json.encodeString "condition").data ++ ':' ::
        ((json.encodeString v.Condition).data ++ ',' ::
          ((json.encodeString "temperature").data ++ ':' ::
            ((json.encodeString v.Temperature).data ++ ['\x7d', '\n'])))) := by
    unfold json.Encode
    rw [String.data_append, String.data_append, String.data_append, String.data_append,
      hk1, hk2]
    simp only [List.cons_append, List.append_assoc, List.nil_append]
  unfold Spec.readObject
  rw [hdata]
  have hlen : ∀ a b c d : List Char, ∃ n,
      (a ++ ':' :: (b ++ ',' :: (c ++ ':' :: (d ++ ['\x7d', '\n'])))).length = n + 2 := by
    intro a b c d
    refine ⟨a.length + b.length + c.length + d.length + 3, ?_⟩
    simp only [List.length_append, List.length_cons, List.length_nil]
    omega
  obtain ⟨n, hn⟩ := hlen (json.encodeString "condition").data (json.encodeString v.Condition).data
    (json.encodeString "temperature").data (json.encodeString v.Temperature).data
  have hw : ['\n'].all Spec.isWhitespace = true := by decide
  simp only [hn, readMembers_two, hw, if_true]

/-! ## The successful reply -/

/-- C1: with the key set, `lat` and `lon` non-empty, a non-401 answer whose body
decodes to a map in which `weather` is a non-empty array whose first element is
an object with string `main = s`, and `main` is an object with numeric
`temp = t`, the reply is 200 with content type `application/json`, and its body
is JSON text for an object with exactly the two members `condition`, the
lower case of `s`, and `temperature`, the label of `t` in the spec's table; the
upstream was called once. -/
theorem weatherHandler_success (W : World) (r : Request) (resp : http.Response)
    (result m main : JSONMap) (rest : List JSONValue) (s : String) (t : Float64)
    (hkey : W.Getenv "OPENWEATHER_API_KEY" ≠ "")
    (hlat : r.Query.Get "lat" ≠ "") (hlon : r.Query.Get "lon" ≠ "")
    (hget : W.Get (upstreamURL (r.Query.Get "lat") (r.Query.Get "lon")
      (W.Getenv "OPENWEATHER_API_KEY")) = some resp)
    (hstatus : resp.StatusCode ≠ http.StatusUnauthorized)
    (hread : resp.Body.err = false)
    (hdec : W.decodeMap resp.Body.data = some result)
    (hweather : mapIndex result "weather" = JSONValue.array (JSONValue.object m :: rest))
    (hcond : mapIndex m "main" = JSONValue.string s)
    (hmain : mapIndex result "main" = JSONValue.object main)
    (htemp : mapIndex main "temp" = JSONValue.number t) :
    (weatherHandler W r).panicked = false ∧
    (weatherHandler W r).w.status = some 200 ∧
    (weatherHandler W r).w.Get "Content-Type" = "application/json" ∧
    Spec.readObject (weatherHandler W r).w.body =
      some [("condition", Spec.lowerCase s), ("temperature", Spec.label t)] ∧
    (weatherHandler W r).calls.length = 1 := by
  have hrun : weatherHandler W r =
      ⟨respond {} result s, [upstreamURL (r.Query.Get "lat") (r.Query.Get "lon")
        (W.Getenv "OPENWEATHER_API_KEY")], false⟩ := by
    rw [weatherHandler_decoded W r resp result hkey hlat hlon hget hstatus hread hdec,
      weatherCondition_string result m rest s hweather hcond]
  rw [hrun, respond_number {} result main s t hmain htemp]
  refine ⟨rfl, (Encode_fresh _).1, (Encode_fresh _).2.1, ?_, rfl⟩
  rw [(Encode_fresh _).2.2, readObject_Encode, ToLower_eq_lowerCase, tempDesc_eq_label]

/-- C1 at two inputs.  The end-to-end example of the spec: body
`{"weather":[{"main":"Clouds"}],"main":{"temp":18.4}}`, request `lat=10&lon=20`,
reply `{"condition":"clouds","temperature":"Moderate"}`.  A condition with
upper-case letters outside ASCII, a quote and angle brackets, at 30 degrees:
the reply is escaped JSON text that reads back as the lower-cased condition. -/
theorem weatherHandler_success_witness :
    ((weatherHandler cloudsWorld request1020).w.status = some 200 ∧
      (weatherHandler cloudsWorld request1020).w.Get "Content-Type" = "application/json" ∧
      (weatherHandler cloudsWorld request1020).w.body =
        "\x7b\"condition\":\"clouds\",\"temperature\":\"Moderate\"\x7d\n" ∧
      Spec.readObject (weatherHandler cloudsWorld request1020).w.body =
        some [("condition", "clouds"), ("temperature", "Moderate")]) ∧
    ((weatherHandler accentWorld request1020).w.status = some 200 ∧
      (weatherHandler accentWorld request1020).w.body =
        "\x7b\"condition\":\"été \\\"clouds\\\" \\u003cω\\u003e\",\"temperature\":\"Hot\"\x7d\n" ∧
      Spec.readObject (weatherHandler accentWorld request1020).w.body =
        some [("condition", "été \"clouds\" <ω>"), ("temperature", "Hot")]) := by
  have h1 := weatherHandler_success cloudsWorld request1020 ⟨200, ⟨bytes cloudsBody, false⟩⟩
    cloudsTree [("main", .string "Clouds")] [("temp", .number float18_4)] [] "Clouds" float18_4
    (by decide) (by decide) (by decide) rfl (by decide) rfl rfl rfl rfl rfl rfl
  have h2 := weatherHandler_success accentWorld request1020 ⟨200, ⟨bytes accentBody, false⟩⟩
    accentTree [("main", .string "ÉTÉ \"Clouds\" <Ω>")] [("temp", .number 30)] []
    "ÉTÉ \"Clouds\" <Ω>" 30
    (by decide) (by decide) (by decide) rfl (by decide) rfl rfl rfl rfl rfl rfl
  have l1 : Spec.label float18_4 = "Moderate" := by norm_num [Spec.label, float18_4]
  have l2 : Spec.label 30 = "Hot" := by norm_num [Spec.label]
  have t1 : tempDesc float18_4 = "Moderate" := by norm_num [tempDesc, float18_4]
  have t2 : tempDesc 30 = "Hot" := by norm_num [tempDesc]
  have c1 : Spec.lowerCase "Clouds" = "clouds" := by decide
  have c2 : Spec.lowerCase "ÉTÉ \"Clouds\" <Ω>" = "été \"clouds\" <ω>" := by decide
  have b1 : (weatherHandler cloudsWorld request1020).w.body =
      json.Encode ⟨strings.ToLower "Clouds", tempDesc float18_4⟩ := rfl
  have b2 : (weatherHandler accentWorld request1020).w.body =
      json.Encode ⟨strings.ToLower "ÉTÉ \"Clouds\" <Ω>", tempDesc 30⟩ := rfl
  rw [l1, c1] at h1
  rw [l2, c2] at h2
  refine ⟨⟨h1.2.1, h1.2.2.1, ?_, h1.2.2.2.1⟩, ⟨h2.2.1, ?_, h2.2.2.2.1⟩⟩
  · rw [b1, t1]; decide
  · rw [b2, t2]; decide

/-! ## Configuration and input errors -/

/-- C7: when `OPENWEATHER_API_KEY` is absent (empty), every request, whatever its
query parameters, is answered 500 with the configuration message, and the
upstream is not contacted. -/
theorem weatherHandler_no_key (W : World) (r : Request)
    (hkey : W.Getenv "OPENWEATHER_API_KEY" = "") :
    (weatherHandler W r).w.status = some 500 ∧
    (weatherHandler W r).w.body = "API key for OpenWeatherMap is not set\n" ∧
    (weatherHandler W r).calls = [] ∧
    (weatherHandler W r).panicked = false := by
  simp [weatherHandler, hkey, http.Error, http.ResponseWriter.Write,
    http.ResponseWriter.WriteHeader, http.ResponseWriter.Set, http.StatusInternalServerError]

/-- C7 at a request that also lacks `lat`, in a world without the key. -/
theorem weatherHandler_no_key_witness :
    (weatherHandler noKeyWorld requestNoLat).w.status = some 500 ∧
    (weatherHandler noKeyWorld requestNoLat).w.body =
      "API key for OpenWeatherMap is not set\n" ∧
    (weatherHandler noKeyWorld requestNoLat).calls = [] ∧
    (weatherHandler noKeyWorld requestNoLat).panicked = false :=
  weatherHandler_no_key noKeyWorld requestNoLat (by decide)

/-- C6 as stated fails: the request without `lat` is answered 500, not 400, when
the key is not set, because the key is checked first. -/
theorem missing_coordinate_not_always_400 :
    requestNoLat.Query.Get "lat" = "" ∧
    (weatherHandler noKeyWorld requestNoLat).w.status = some 500 ∧
    (weatherHandler noKeyWorld requestNoLat).w.status ≠ some 400 := by
  decide

/-- C6, amended: every request in which `lat` or `lon` (or both) is missing or
empty leads to no outbound call; it is answered 400 when the API key is set, and
500 when it is not. -/
theorem weatherHandler_missing_coordinate (W : World) (r : Request)
    (hmissing : r.Query.Get "lat" = "" ∨ r.Query.Get "lon" = "") :
    (weatherHandler W r).calls = [] ∧
    (weatherHandler W r).panicked = false ∧
    (W.Getenv "OPENWEATHER_API_KEY" ≠ "" →
      (weatherHandler W r).w.status = some 400 ∧
      (weatherHandler W r).w.body = "Please provide both latitude and longitude\n") ∧
    (W.Getenv "OPENWEATHER_API_KEY" = "" → (weatherHandler W r).w.status = some 500) := by
  by_cases hkey : W.Getenv "OPENWEATHER_API_KEY" = ""
  · simp [weatherHandler, hkey, http.Error, http.ResponseWriter.Write,
      http.ResponseWriter.WriteHeader, http.ResponseWriter.Set,
      http.StatusInternalServerError]
  · simp [weatherHandler, hkey, hmissing, http.Error, http.ResponseWriter.Write,
      http.ResponseWriter.WriteHeader, http.ResponseWriter.Set, http.StatusBadRequest]

/-- The amended C6 at the request without `lat`, with the key set. -/
theorem weatherHandler_missing_coordinate_witness :
    (weatherHandler cloudsWorld requestNoLat).calls = [] ∧
    (weatherHandler cloudsWorld requestNoLat).w.status = some 400 ∧
    (weatherHandler cloudsWorld requestNoLat).w.body =
      "Please provide both latitude and longitude\n" :=
  have h := weatherHandler_missing_coordinate cloudsWorld requestNoLat (Or.inl (by decide))
  ⟨h.1, h.2.2.1 (by decide)⟩

/-! ## Upstream authentication failure -/

/-- C8: for every upstream answer with status 401 the reply is 401, in plain text;
it is `Invalid API key: <message>` when the body decodes as the error struct and
the generic `Invalid API key` when it does not; and the body is never treated as
weather data: the run is the same whatever the weather decoder would make of it. -/
theorem weatherHandler_unauthorized (W : World) (r : Request) (resp : http.Response)
    (hkey : W.Getenv "OPENWEATHER_API_KEY" ≠ "")
    (hlat : r.Query.Get "lat" ≠ "") (hlon : r.Query.Get "lon" ≠ "")
    (hget : W.Get (upstreamURL (r.Query.Get "lat") (r.Query.Get "lon")
      (W.Getenv "OPENWEATHER_API_KEY")) = some resp)
    (hstatus : resp.StatusCode = http.StatusUnauthorized) :
    (weatherHandler W r).w.status = some 401 ∧
    (weatherHandler W r).w.Get "Content-Type" = "text/plain; charset=utf-8" ∧
    (weatherHandler W r).panicked = false ∧
    (∀ apiError, W.decodeAPIError resp.Body = some apiError →
      (weatherHandler W r).w.body = "Invalid API key: " ++ apiError.Message ++ "\n") ∧
    (W.decodeAPIError resp.Body = none →
      (weatherHandler W r).w.body = "Invalid API key\n") ∧
    (∀ decodeMap, weatherHandler { W with decodeMap := decodeMap } r = weatherHandler W r) := by
  refine ⟨?_, ?_, ?_, ?_, ?_, ?_⟩
  · cases hd : W.decodeAPIError resp.Body <;>
      simp [weatherHandler, hkey, hlat, hlon, hget, hstatus, hd, http.Error,
        http.ResponseWriter.Write, http.ResponseWriter.WriteHeader, http.ResponseWriter.Set,
        http.StatusUnauthorized]
  · cases hd : W.decodeAPIError resp.Body <;>
      simp [weatherHandler, hkey, hlat, hlon, hget, hstatus, hd, http.Error,
        http.ResponseWriter.Write, http.ResponseWriter.WriteHeader, http.ResponseWriter.Set,
        http.ResponseWriter.Get, http.StatusUnauthorized] <;> rfl
  · cases hd : W.decodeAPIError resp.Body <;>
      simp [weatherHandler, hkey, hlat, hlon, hget, hstatus, hd]
  · intro apiError hd
    simp [weatherHandler, hkey, hlat, hlon, hget, hstatus, hd, http.Error,
      http.ResponseWriter.Write, http.ResponseWriter.WriteHeader, http.ResponseWriter.Set]
  · intro hd
    simp [weatherHandler, hkey, hlat, hlon, hget, hstatus, hd, http.Error,
      http.ResponseWriter.Write, http.ResponseWriter.WriteHeader, http.ResponseWriter.Set]
  · intro decodeMap
    simp [weatherHandler, hkey, hlat, hlon, hget, hstatus]

/-- C8 at the 401 answer of OpenWeatherMap, whose message is passed on. -/
theorem weatherHandler_unauthorized_witness :
    (weatherHandler unauthorizedWorld request1020).w.status = some 401 ∧
    (weatherHandler unauthorizedWorld request1020).w.body =
      "Invalid API key: Invalid API key.\n" := by
  have h := weatherHandler_unauthorized unauthorizedWorld request1020
    ⟨401, ⟨bytes unauthorizedBody, false⟩⟩ (by decide) (by decide) (by decide) rfl rfl
  exact ⟨h.1, h.2.2.2.1 ⟨401, "Invalid API key."⟩ rfl⟩

/-! ## Undecodable body -/

/-- C9: for every non-401 answer whose (readable) body fails to decode, the reply
is 500 with the message `Failed to decode weather data`, which differs from the
message of every 500 reply of the field-extraction stage (missing or non-numeric
temperature, missing `main`). -/
theorem weatherHandler_malformed (W : World) (r : Request) (resp : http.Response)
    (hkey : W.Getenv "OPENWEATHER_API_KEY" ≠ "")
    (hlat : r.Query.Get "lat" ≠ "") (hlon : r.Query.Get "lon" ≠ "")
    (hget : W.Get (upstreamURL (r.Query.Get "lat") (r.Query.Get "lon")
      (W.Getenv "OPENWEATHER_API_KEY")) = some resp)
    (hstatus : resp.StatusCode ≠ http.StatusUnauthorized)
    (hread : resp.Body.err = false)
    (hdec : W.decodeMap resp.Body.data = none) :
    (weatherHandler W r).w.status = some 500 ∧
    (weatherHandler W r).w.body = "Failed to decode weather data\n" ∧
    (weatherHandler W r).panicked = false ∧
    (weatherHandler W r).w.body ≠ "Temperature data is unavailable\n" ∧
    (weatherHandler W r).w.body ≠ "Weather data format is unexpected\n" ∧
    (∀ (result : JSONMap) (c : String),
      (respond {} result c).status = some 500 →
      (respond {} result c).body ≠ (weatherHandler W r).w.body) := by
  have hbody : (weatherHandler W r).w.body = "Failed to decode weather data\n" := by
    simp [weatherHandler, hkey, hlat, hlon, hget, hstatus, ioutil.ReadAll, hread, hdec,
      http.Error, http.ResponseWriter.Write, http.ResponseWriter.WriteHeader,
      http.ResponseWriter.Set]
  refine ⟨?_, hbody, ?_, ?_, ?_, ?_⟩
  · simp [weatherHandler, hkey, hlat, hlon, hget, hstatus, ioutil.ReadAll, hread, hdec,
      http.Error, http.ResponseWriter.Write, http.ResponseWriter.WriteHeader,
      http.ResponseWriter.Set, http.StatusInternalServerError]
  · simp [weatherHandler, hkey, hlat, hlon, hget, hstatus, ioutil.ReadAll, hread, hdec]
  · rw [hbody]; decide
  · rw [hbody]; decide
  · intro result c h500
    rw [hbody]
    rcases respond_cases {} result c with ⟨t, h⟩ | h | h
    · rw [h, (Encode_fresh _).1] at h500
      exact absurd h500 (by decide)
    · rw [h, (Error_fresh _ _).2.2]; decide
    · rw [h, (Error_fresh _ _).2.2]; decide

/-- C9 at an HTML error page sent with status 200. -/
theorem weatherHandler_malformed_witness :
    (weatherHandler garbledWorld request1020).w.status = some 500 ∧
    (weatherHandler garbledWorld request1020).w.body = "Failed to decode weather data\n" := by
  have h := weatherHandler_malformed garbledWorld request1020
    ⟨200, ⟨bytes "<html>Bad Gateway</html>", false⟩⟩
    (by decide) (by decide) (by decide) rfl (by decide) rfl rfl
  exact ⟨h.1, h.2.1⟩

/-! ## The unchecked type assertion of line 96 -/

/-- On a decoded body the run ends in a panic exactly when `weather` is a non-empty
array whose first element is not an object; the handler has then written nothing. -/
theorem weatherHandler_panicked_iff (W : World) (r : Request) (resp : http.Response)
    (result : JSONMap)
    (hkey : W.Getenv "OPENWEATHER_API_KEY" ≠ "")
    (hlat : r.Query.Get "lat" ≠ "") (hlon : r.Query.Get "lon" ≠ "")
    (hget : W.Get (upstreamURL (r.Query.Get "lat") (r.Query.Get "lon")
      (W.Getenv "OPENWEATHER_API_KEY")) = some resp)
    (hstatus : resp.StatusCode ≠ http.StatusUnauthorized)
    (hread : resp.Body.err = false)
    (hdec : W.decodeMap resp.Body.data = some result) :
    ((weatherHandler W r).panicked = true ↔
      ∃ first rest, mapIndex result "weather" = JSONValue.array (first :: rest) ∧
        asObject first = none) ∧
    ((weatherHandler W r).panicked = true → (weatherHandler W r).w.status = none) := by
  rw [weatherHandler_decoded W r resp result hkey hlat hlon hget hstatus hread hdec,
    ← weatherCondition_eq_none_iff]
  cases weatherCondition result <;> simp

/-- The part of C3 the code keeps: when `weather` is absent, not an array, empty,
or its first element is an object whose `main` is absent or not a string, and
`main.temp` is numeric, the reply is 200 with condition `unknown`. -/
theorem weatherHandler_unknown_condition (W : World) (r : Request) (resp : http.Response)
    (result main : JSONMap) (t : Float64)
    (hkey : W.Getenv "OPENWEATHER_API_KEY" ≠ "")
    (hlat : r.Query.Get "lat" ≠ "") (hlon : r.Query.Get "lon" ≠ "")
    (hget : W.Get (upstreamURL (r.Query.Get "lat") (r.Query.Get "lon")
      (W.Getenv "OPENWEATHER_API_KEY")) = some resp)
    (hstatus : resp.StatusCode ≠ http.StatusUnauthorized)
    (hread : resp.Body.err = false)
    (hdec : W.decodeMap resp.Body.data = some result)
    (hweather : asArray (mapIndex result "weather") = none ∨
      mapIndex result "weather" = JSONValue.array [] ∨
      ∃ m rest, mapIndex result "weather" = JSONValue.array (JSONValue.object m :: rest) ∧
        asString (mapIndex m "main") = none)
    (hmain : mapIndex result "main" = JSONValue.object main)
    (htemp : mapIndex main "temp" = JSONValue.number t) :
    (weatherHandler W r).panicked = false ∧
    (weatherHandler W r).w.status = some 200 ∧
    (weatherHandler W r).w.Get "Content-Type" = "application/json" ∧
    (weatherHandler W r).w.body = json.Encode ⟨"unknown", tempDesc t⟩ := by
  have hc : weatherCondition result = some "Unknown" := by
    rcases hweather with h | h | ⟨m, rest, h, hs⟩
    · simp [weatherCondition, h]
    · simp [weatherCondition, h, asArray]
    · simp [weatherCondition, h, hs, asArray, asObject]
  have hrun : weatherHandler W r =
      ⟨respond {} result "Unknown", [upstreamURL (r.Query.Get "lat") (r.Query.Get "lon")
        (W.Getenv "OPENWEATHER_API_KEY")], false⟩ := by
    rw [weatherHandler_decoded W r resp result hkey hlat hlon hget hstatus hread hdec, hc]
  rw [hrun, respond_number {} result main "Unknown" t hmain htemp]
  have hlow : strings.ToLower "Unknown" = "unknown" := rfl
  rw [hlow]
  exact ⟨rfl, (Encode_fresh _).1, (Encode_fresh _).2.1, (Encode_fresh _).2.2⟩

/-- The fallback at a body without `weather`: `{"main":{"temp":5}}`. -/
theorem weatherHandler_unknown_condition_witness :
    (weatherHandler noWeatherWorld request1020).w.status = some 200 ∧
    (weatherHandler noWeatherWorld request1020).w.body =
      "\x7b\"condition\":\"unknown\",\"temperature\":\"Cold\"\x7d\n" := by
  have hlabel : tempDesc 5 = "Cold" := by norm_num [tempDesc]
  have h := weatherHandler_unknown_condition noWeatherWorld request1020
    ⟨200, ⟨bytes noWeatherBody, false⟩⟩ noWeatherTree [("temp", .number 5)] 5
    (by decide) (by decide) (by decide) rfl (by decide) rfl rfl (Or.inl rfl) rfl rfl
  rw [hlabel] at h
  exact ⟨h.2.1, h.2.2.2⟩

/-- C3 fails on the code: on the body `{"weather":["Clouds"],"main":{"temp":18.4}}`,
whose first `weather` element has no `main` field, the run ends in the panic of
line 96 with nothing written, not in a 200 reply with condition `unknown`. -/
theorem weatherHandler_string_element_panics :
    mapIndex stringElementTree "weather" = JSONValue.array [JSONValue.string "Clouds"] ∧
    (weatherHandler stringElementWorld request1020).panicked = true ∧
    (weatherHandler stringElementWorld request1020).w.status = none ∧
    (weatherHandler stringElementWorld request1020).w.body = "" := by
  refine ⟨rfl, ?_, ?_, ?_⟩ <;> decide

/-- C4 fails on the code: on the body `{"weather":[7],"main":{"temp":18.4}}`, which
decodes, the extraction does not complete: the run ends in the panic of line 96,
in neither a 200 nor a 500 reply. -/
theorem weatherHandler_number_element_panics :
    numberElementWorld.decodeMap (bytes numberElementBody) = some numberElementTree ∧
    (weatherHandler numberElementWorld request1020).panicked = true ∧
    (weatherHandler numberElementWorld request1020).w.status ≠ some 200 ∧
    (weatherHandler numberElementWorld request1020).w.status ≠ some 500 := by
  refine ⟨rfl, ?_, ?_, ?_⟩ <;> decide

/-- The part of C5 the code keeps: when the line-96 panic does not occur, a missing
or non-object `main` is answered 500 with `Weather data format is unexpected`, and
an object `main` whose `temp` is absent or not a number is answered 500 with
`Temperature data is unavailable`. -/
theorem weatherHandler_no_temperature (W : World) (r : Request) (resp : http.Response)
    (result : JSONMap) (c : String)
    (hkey : W.Getenv "OPENWEATHER_API_KEY" ≠ "")
    (hlat : r.Query.Get "lat" ≠ "") (hlon : r.Query.Get "lon" ≠ "")
    (hget : W.Get (upstreamURL (r.Query.Get "lat") (r.Query.Get "lon")
      (W.Getenv "OPENWEATHER_API_KEY")) = some resp)
    (hstatus : resp.StatusCode ≠ http.StatusUnauthorized)
    (hread : resp.Body.err = false)
    (hdec : W.decodeMap resp.Body.data = some result)
    (hcond : weatherCondition result = some c) :
    (asObject (mapIndex result "main") = none →
      (weatherHandler W r).w.status = some 500 ∧
      (weatherHandler W r).w.body = "Weather data format is unexpected\n") ∧
    (∀ main, asObject (mapIndex result "main") = some main →
      asFloat64 (mapIndex main "temp") = none →
      (weatherHandler W r).w.status = some 500 ∧
      (weatherHandler W r).w.body = "Temperature data is unavailable\n") := by
  have hrun : weatherHandler W r =
      ⟨respond {} result c, [upstreamURL (r.Query.Get "lat") (r.Query.Get "lon")
        (W.Getenv "OPENWEATHER_API_KEY")], false⟩ := by
    rw [weatherHandler_decoded W r resp result hkey hlat hlon hget hstatus hread hdec, hcond]
  rw [hrun]
  constructor
  · intro h
    have hr : respond {} result c =
        http.Error {} "Weather data format is unexpected" http.StatusInternalServerError := by
      simp [respond, h]
    rw [hr]
    exact ⟨(Error_fresh _ _).1, (Error_fresh _ _).2.2⟩
  · intro main h1 h2
    have hr : respond {} result c =
        http.Error {} "Temperature data is unavailable" http.StatusInternalServerError := by
      simp [respond, h1, h2]
    rw [hr]
    exact ⟨(Error_fresh _ _).1, (Error_fresh _ _).2.2⟩

/-- The 500 reply at the 404 body of OpenWeatherMap, which has no `main`. -/
theorem weatherHandler_no_temperature_witness :
    (weatherHandler notFoundWorld request1020).w.status = some 500 ∧
    (weatherHandler notFoundWorld request1020).w.body =
      "Weather data format is unexpected\n" :=
  (weatherHandler_no_temperature notFoundWorld request1020
    ⟨404, ⟨bytes notFoundBody, false⟩⟩ notFoundTree "Unknown"
    (by decide) (by decide) (by decide) rfl (by decide) rfl rfl rfl).1 rfl

/-- C5 fails on the code: on the body `{"weather":[null]}`, which has no `main`, the
run ends in the panic of line 96 before `main` is looked at, not in a 500 reply. -/
theorem weatherHandler_null_element_panics :
    asObject (mapIndex nullElementTree "main") = none ∧
    (weatherHandler nullElementWorld request1020).panicked = true ∧
    (weatherHandler nullElementWorld request1020).w.status ≠ some 500 ∧
    (weatherHandler nullElementWorld request1020).w.body ≠
      "Weather data format is unexpected\n" := by
  refine ⟨rfl, ?_, ?_, ?_⟩ <;> decide

/-- The part of C10 the code keeps: two upstream answers with the same body and
statuses both other than 401 lead to the same run (reply, calls, panic), in
worlds that otherwise agree. -/
theorem weatherHandler_status_irrelevant (W1 W2 : World) (r : Request)
    (resp1 resp2 : http.Response)
    (henv : W2.Getenv = W1.Getenv) (hdecode : W2.decodeMap = W1.decodeMap)
    (hkey : W1.Getenv "OPENWEATHER_API_KEY" ≠ "")
    (hlat : r.Query.Get "lat" ≠ "") (hlon : r.Query.Get "lon" ≠ "")
    (hget1 : W1.Get (upstreamURL (r.Query.Get "lat") (r.Query.Get "lon")
      (W1.Getenv "OPENWEATHER_API_KEY")) = some resp1)
    (hget2 : W2.Get (upstreamURL (r.Query.Get "lat") (r.Query.Get "lon")
      (W1.Getenv "OPENWEATHER_API_KEY")) = some resp2)
    (hbody : resp2.Body = resp1.Body)
    (hstatus1 : resp1.StatusCode ≠ http.StatusUnauthorized)
    (hstatus2 : resp2.StatusCode ≠ http.StatusUnauthorized) :
    weatherHandler W2 r = weatherHandler W1 r := by
  simp [weatherHandler, henv, hdecode, hkey, hlat, hlon, hget1, hget2, hbody, hstatus1,
    hstatus2]

/-- The same body under status 503 and under status 200 gives the same run. -/
theorem weatherHandler_status_irrelevant_witness :
    weatherHandler cloudsWorld503 request1020 = weatherHandler cloudsWorld request1020 :=
  weatherHandler_status_irrelevant cloudsWorld cloudsWorld503 request1020
    ⟨200, ⟨bytes cloudsBody, false⟩⟩ ⟨503, ⟨bytes cloudsBody, false⟩⟩
    rfl rfl (by decide) (by decide) (by decide) rfl rfl rfl (by decide) (by decide)

/-- C10 fails on the code: an upstream 404 whose body
`{"weather":[true],"main":{"temp":30}}` carries a numeric `main.temp` does not
yield 200: the run ends in the panic of line 96. -/
theorem weatherHandler_not_found_panics :
    asFloat64 (mapIndex [("temp", JSONValue.number 30)] "temp") = some 30 ∧
    (weatherHandler boolElementWorld request1020).panicked = true ∧
    (weatherHandler boolElementWorld request1020).w.status ≠ some 200 := by
  refine ⟨rfl, ?_, ?_⟩ <;> decide

end WeatherApp
